import Mathlib

/-!
Verification of the beautify_print repository (src/beautify.py) against its
natural-language specification. The Python module is shallowly embedded:
Python runtime values are the inductive type Value, the Rich renderables
produced by BeautifyPrinter.print are the inductive type Output, and each
call to console.print is recorded as one element of a List Write. Paths of
the Python code that would raise (iterating a non-iterable row, calling
.get on a non-mapping) are modelled with Option. Integer arithmetic uses
Int; Python floor division by the positive literal 2 coincides with the
Euclidean division of Int, which is what the slash denotes here.
-/

namespace Beautify

/-- Value models the Python runtime values the dispatcher can receive:
None, bool, int, str, list, tuple and dict. Dictionary keys are modelled
as strings, which is the shape the module documents for table input; the
code only ever applies str to a key, which is the identity on str. -/
inductive Value where
  | vNone
  | vBool (b : Bool)
  | vInt (n : Int)
  | vStr (s : String)
  | vList (xs : List Value)
  | vTuple (xs : List Value)
  | vDict (entries : List (String × Value))

mutual
/-- pyRepr models the Python builtin repr on Value. String escaping inside
repr is simplified to plain single quotes; no claim depends on it. -/
def pyRepr : Value → String
  | .vNone => "None"
  | .vBool true => "True"
  | .vBool false => "False"
  | .vInt n => toString n
  | .vStr s => "\x27" ++ s ++ "\x27"
  | .vList xs => "[" ++ commaList xs ++ "]"
  | .vTuple [] => "()"
  | .vTuple [x] => "(" ++ pyRepr x ++ ",)"
  | .vTuple xs => "(" ++ commaList xs ++ ")"
  | .vDict es => "\x7b" ++ commaEntries es ++ "\x7d"

/-- commaList renders list elements separated by a comma and space, with
each element shown by pyRepr, as Python does inside list and tuple repr. -/
def commaList : List Value → String
  | [] => ""
  | [x] => pyRepr x
  | x :: xs => pyRepr x ++ ", " ++ commaList xs

/-- commaEntries renders dict entries as Python does inside dict repr. -/
def commaEntries : List (String × Value) → String
  | [] => ""
  | [ (k, v) ] => "\x27" ++ k ++ "\x27: " ++ pyRepr v
  | (k, v) :: es => "\x27" ++ k ++ "\x27: " ++ pyRepr v ++ ", " ++ commaEntries es
end

/-- pyStr models the Python builtin str on Value: identical to repr except
on strings, where it is the identity. -/
def pyStr : Value → String
  | .vStr s => s
  | v => pyRepr v

/-- RTable models a rich.table.Table as the data the module feeds it:
column headers (from add_column calls) and rows (from add_row calls). -/
structure RTable where
  columns : List String
  rows : List (List String)
deriving DecidableEq

/-- dictGet models the Python dict.get method with a default: the value of
the first entry whose key matches, else the default. -/
def dictGet (entries : List (String × Value)) (k : String) (default : Value) : Value :=
  match entries.find? (fun e => e.1 == k) with
  | some e => e.2
  | none => default

/-- rowOfItem models one iteration of the list-of-dicts row loop in
BeautifyPrinter._create_table: [str(item.get(k, "")) for k in keys].
Calling .get on a non-dict raises AttributeError, modelled as none. -/
def rowOfItem (keys : List String) : Value → Option (List String)
  | .vDict es => some (keys.map fun k => pyStr (dictGet es k (Value.vStr "")))
  | _ => none

/-- rowsOfItems models the list-of-dicts row loop of _create_table, one
add_row call per item; a raising iteration aborts the whole call. -/
def rowsOfItems (keys : List String) : List Value → Option (List (List String))
  | [] => some []
  | item :: rest =>
      match rowOfItem keys item with
      | none => none
      | some r => (rowsOfItems keys rest).map (fun rs => r :: rs)

/-- pyIter models Python iteration over a value: lists and tuples yield
their elements, strings their characters, dicts their keys; everything
else raises TypeError, modelled as none. -/
def pyIter : Value → Option (List Value)
  | .vList xs => some xs
  | .vTuple xs => some xs
  | .vStr s => some (s.data.map fun c => Value.vStr (String.mk [c]))
  | .vDict es => some (es.map fun e => Value.vStr e.1)
  | .vNone => none
  | .vBool _ => none
  | .vInt _ => none

/-- rowsOfSeqs models the list-of-sequences row loop of _create_table
over data[1:], one add_row call per row, each row iterated and its items
stringified; iterating a non-iterable row aborts the whole call. -/
def rowsOfSeqs : List Value → Option (List (List String))
  | [] => some []
  | row :: rest =>
      match pyIter row with
      | none => none
      | some items => (rowsOfSeqs rest).map (fun rs => items.map pyStr :: rs)

/-- create_table embeds BeautifyPrinter._create_table. A dict becomes one
column per key and a single row of stringified values. A non-empty list
dispatches on its first element: dict, list or tuple, or scalar. Any
other input, including an empty list, yields the bare header-only table
the Python code returns untouched. none marks the raising paths. -/
def create_table : Value → Option RTable
  | .vDict entries =>
      some ⟨entries.map (fun e => e.1), [entries.map (fun e => pyStr e.2)]⟩
  | .vList [] => some ⟨[], []⟩
  | .vList (first :: rest) =>
      match first with
      | .vDict e0 =>
          (rowsOfItems (e0.map (fun e => e.1)) (Value.vDict e0 :: rest)).map
            (fun rows => ⟨e0.map (fun e => e.1), rows⟩)
      | .vList hs =>
          (rowsOfSeqs rest).map (fun rows => ⟨hs.map pyStr, rows⟩)
      | .vTuple hs =>
          (rowsOfSeqs rest).map (fun rows => ⟨hs.map pyStr, rows⟩)
      | _ => some ⟨["Value"], (first :: rest).map (fun item => [pyStr item])⟩
  | _ => some ⟨[], []⟩

/-- Mode is the primitive rendering mode the if/elif chain of
BeautifyPrinter.print selects. -/
inductive Mode where
  | markdown
  | code
  | table
  | pretty
deriving DecidableEq

/-- isListOrDict embeds isinstance(content, (list, dict)). -/
def isListOrDict : Value → Bool
  | .vList _ => true
  | .vDict _ => true
  | _ => false

/-- selectMode embeds the if/elif chain on the markdown, code and table
flags in BeautifyPrinter.print (lines 110-138). -/
def selectMode (markdown code table : Bool) (content : Value) : Mode :=
  if markdown then Mode.markdown
  else if code then Mode.code
  else if table && isListOrDict content then Mode.table
  else Mode.pretty

/-- Output models the Rich renderable BeautifyPrinter.print builds:
Markdown, Syntax, Table, Pretty, or a Panel wrapping another output. -/
inductive Output where
  | markdown (text : String)
  | codeHighlight (text : String) (language : String) (theme : String) (line_numbers : Bool)
  | table (t : RTable)
  | pretty (v : Value) (expand_all : Bool) (indent_guides : Bool)
  | panel (inner : Output) (panelTitle : Option String) (style : String) (expand : Bool)

/-- buildOutput embeds the mode branches of BeautifyPrinter.print. The
markdown and code branches coerce content with str when it is not already
a string; since str is the identity on strings this is pyStr. The table
branch calls _create_table; the default branch builds Pretty. -/
def buildOutput (markdown code table : Bool) (language theme : String)
    (line_numbers expand_all indent_guides : Bool) (content : Value) : Option Output :=
  match selectMode markdown code table content with
  | Mode.markdown => some (Output.markdown (pyStr content))
  | Mode.code => some (Output.codeHighlight (pyStr content) language theme line_numbers)
  | Mode.table => (create_table content).map Output.table
  | Mode.pretty => some (Output.pretty content expand_all indent_guides)

/-- prepareContent embeds lines 99-108 of BeautifyPrinter.print: none for
the empty-args early return; a single argument passes through unchanged;
two or more arguments are joined with sep after str conversion. -/
def prepareContent (sep : String) : List Value → Option Value
  | [] => none
  | [a] => some a
  | args => some (Value.vStr (String.intercalate sep (args.map pyStr)))

/-- Align models the title_align literal of BeautifyPrinter.print. -/
inductive Align where
  | left
  | center
  | right
deriving DecidableEq

/-- pyRepeat models the Python string repetition "-" * n, where a
negative count yields the empty string. -/
def pyRepeat (c : Char) (n : Int) : String := String.mk (List.replicate n.toNat c)

/-- centerPad is width - len(title) - 2, the dash budget of the centered
banner in BeautifyPrinter._print_with_title. -/
def centerPad (title : String) (width : Int) : Int := width - title.length - 2

/-- separator_len embeds (width - len(title) - 2) // 2. Python floor
division by the positive constant 2 equals Euclidean division on Int. -/
def separator_len (title : String) (width : Int) : Int := centerPad title width / 2

/-- centerLeftSep is the left dash fill of the centered banner. -/
def centerLeftSep (title : String) (width : Int) : String :=
  pyRepeat '-' (separator_len title width)

/-- centerRightSep is the right dash fill, "-" * (width - len(title) - 2
- separator_len). -/
def centerRightSep (title : String) (width : Int) : String :=
  pyRepeat '-' (centerPad title width - separator_len title width)

/-- centerBanner is the unstyled centered banner text: left dashes, a
space, the title, a space, right dashes. -/
def centerBanner (title : String) (width : Int) : String :=
  centerLeftSep title width ++ " " ++ title ++ " " ++ centerRightSep title width

/-- formatTitleBanner embeds the formatted_title strings built by
BeautifyPrinter._print_with_title, including the style markup. -/
def formatTitleBanner (title : String) (width : Int) (style : String) : Align → String
  | Align.center =>
      "[" ++ style ++ "]" ++ centerBanner title width ++ "[/" ++ style ++ "]"
  | Align.left =>
      "[" ++ style ++ "]" ++ title ++ " " ++ pyRepeat '-' (width - title.length - 1)
        ++ "[/" ++ style ++ "]"
  | Align.right =>
      "[" ++ style ++ "]" ++ pyRepeat '-' (width - title.length - 1) ++ " " ++ title
        ++ "[/" ++ style ++ "]"

/-- Write records one call to console.print: a markup string (the title
banner), a renderable, or the bare call made for empty args. -/
inductive Write where
  | markupText (s : String)
  | rendered (o : Output)
  | blank

/-- pyTruthy models the Python truthiness of a string: non-empty. -/
def pyTruthy (s : String) : Bool := s != ""

/-- emitWrites embeds lines 140-155 of BeautifyPrinter.print: title
without panel prints the banner then the content as two writes; panel
prints one Panel whose title slot is the title when truthy, else None;
otherwise the output is printed directly. -/
def emitWrites (title : String) (panel : Bool) (panel_style : String) (panel_expand : Bool)
    (title_width : Int) (title_style : String) (title_align : Align)
    (output : Output) : List Write :=
  if pyTruthy title && !panel then
    [Write.markupText (formatTitleBanner title title_width title_style title_align),
     Write.rendered output]
  else if panel then
    [Write.rendered (Output.panel output (if pyTruthy title then some title else none)
        panel_style panel_expand)]
  else
    [Write.rendered output]

/-- printWrites composes the stages of BeautifyPrinter.print: the
empty-args early return issues one bare write; otherwise the content is
prepared, the output built, and the writes emitted. none propagates an
exception raised inside _create_table. -/
def printWrites (args : List Value) (title : String)
    (panel markdown code table : Bool) (sep : String)
    (expand_all indent_guides : Bool) (panel_style : String) (panel_expand : Bool)
    (title_width : Int) (title_style : String) (title_align : Align)
    (language theme : String) (line_numbers : Bool) : Option (List Write) :=
  match prepareContent sep args with
  | none => some [Write.blank]
  | some content =>
      match buildOutput markdown code table language theme line_numbers
          expand_all indent_guides content with
      | none => none
      | some output =>
          some (emitWrites title panel panel_style panel_expand
            title_width title_style title_align output)

/-- PrintFn identifies a Python function object that can sit in
builtins.print: the original builtin, or one of the wrapper lambdas the
module creates; the Nat tag distinguishes distinct lambda objects. -/
inductive PrintFn where
  | original
  | beautified (tag : Nat)
deriving DecidableEq

/-- GlobalPrintState is the process-wide mutable state the module touches:
builtins.print, and beautifier._original_print as captured when the global
BeautifyPrinter instance was constructed at module import. -/
structure GlobalPrintState where
  printFn : PrintFn
  beautifierOriginal : PrintFn
deriving DecidableEq

/-- initialGlobalState is the state right after module import, before any
override: builtins.print is the original, and the global beautifier saved
that same original. -/
def initialGlobalState : GlobalPrintState := ⟨PrintFn.original, PrintFn.original⟩

/-- enable_beautiful_print embeds the function of the same name: it
assigns a fresh wrapper lambda to builtins.print and saves nothing. -/
def enable_beautiful_print (tag : Nat) (s : GlobalPrintState) : GlobalPrintState :=
  ⟨PrintFn.beautified tag, s.beautifierOriginal⟩

/-- restore_print embeds BeautifyPrinter.restore_print on the global
beautifier: builtins.print is set back to the _original_print captured at
construction time. -/
def restore_print (s : GlobalPrintState) : GlobalPrintState :=
  ⟨s.beautifierOriginal, s.beautifierOriginal⟩

/-- disable_beautiful_print embeds the function of the same name, which
just calls beautifier.restore_print(). -/
def disable_beautiful_print (s : GlobalPrintState) : GlobalPrintState :=
  restore_print s

/-- ContextSaved is the _original_print attribute a BeautifyContext
instance records in its own __enter__. -/
structure ContextSaved where
  saved : PrintFn

/-- contextEnter embeds BeautifyContext.__enter__: it first saves the
currently active builtins.print on the instance, then installs a fresh
wrapper lambda. -/
def contextEnter (tag : Nat) (s : GlobalPrintState) : ContextSaved × GlobalPrintState :=
  (⟨s.printFn⟩, ⟨PrintFn.beautified tag, s.beautifierOriginal⟩)

/-- contextExit embeds BeautifyContext.__exit__: builtins.print is set
back to the function saved at entry, whatever happened in between. -/
def contextExit (ctx : ContextSaved) (s : GlobalPrintState) : GlobalPrintState :=
  ⟨ctx.saved, s.beautifierOriginal⟩

/-- withBeautifyContext runs a block under the context manager with the
with-statement semantics of Python: __enter__ first, then the body, then
__exit__ regardless of whether the body returned normally (ok) or raised
(error); since __exit__ returns None the exception keeps propagating. -/
def withBeautifyContext {ε α : Type} (tag : Nat)
    (body : GlobalPrintState → Except ε α × GlobalPrintState)
    (s : GlobalPrintState) : Except ε α × GlobalPrintState :=
  let es := contextEnter tag s
  let rs := body es.2
  (rs.1, contextExit es.1 rs.2)

/-- BprintInvocation records one call the decorator wrapper makes to
bprint: the printed value and the flags it passed. -/
structure BprintInvocation (β : Type) where
  value : β
  title : String
  panel : Bool
  markdown : Bool
  code : Bool
  table : Bool

/-- beautify_output embeds the decorator of the same name: the wrapper
calls the decorated function, derives the display title from the supplied
title or the function name, calls bprint on the result as a side effect
(recorded as a BprintInvocation), and returns the original result. -/
def beautify_output {α β : Type} (title : String)
    (panel markdown code table : Bool)
    (func : α → β) (funcName : String) : α → β × BprintInvocation β :=
  fun x =>
    let result := func x
    let display_title := if title = "" then "Output from " ++ funcName else title
    (result, ⟨result, display_title, panel, markdown, code, table⟩)

end Beautify

namespace Beautify

/-- length_pyRepeat: the repeated string has the clamped count as length. -/
theorem length_pyRepeat (c : Char) (n : Int) : (pyRepeat c n).length = n.toNat := by
  simp [pyRepeat, String.length]

/-- rowsOfItems_dicts: extracting rows from a list whose members are all
dicts never fails and yields one row per dict, each field looked up with
the empty-string default. -/
theorem rowsOfItems_dicts (keys : List String) (ds : List (List (String × Value))) :
    rowsOfItems keys (ds.map Value.vDict)
      = some (ds.map fun es => keys.map fun k => pyStr (dictGet es k (Value.vStr ""))) := by
  induction ds with
  | nil => rfl
  | cons d ds ih => simp [rowsOfItems, rowOfItem, ih]

end Beautify

namespace Beautify

/-- C1: the claim says that enabling the global override twice and then
disabling once restores the function active immediately before the second
enable. The code diverges: disable_beautiful_print restores the
_original_print captured at module import, a hardcoded original, not the
first wrapper lambda. This theorem evaluates the code at the failing
input: after enable, enable, disable, builtins.print is the import-time
original, not the wrapper that was active before the second enable. -/
theorem enable_twice_disable_once_divergence :
    (disable_beautiful_print
        (enable_beautiful_print 1 (enable_beautiful_print 0 initialGlobalState))).printFn
      = PrintFn.original ∧
    (enable_beautiful_print 0 initialGlobalState).printFn = PrintFn.beautified 0 ∧
    (disable_beautiful_print
        (enable_beautiful_print 1 (enable_beautiful_print 0 initialGlobalState))).printFn
      ≠ (enable_beautiful_print 0 initialGlobalState).printFn := by
  decide

/-- C2: exactly one primitive mode is selected per call, with priority
markdown over code over table over pretty; table is selected only for
list or dict content; markdown and code coerce the content to its string
representation. The four implications cover every flag combination. -/
theorem mode_dispatch_priority (markdown code table : Bool) (language theme : String)
    (line_numbers expand_all indent_guides : Bool) (content : Value) :
    (markdown = true →
      buildOutput markdown code table language theme line_numbers expand_all indent_guides
          content
        = some (Output.markdown (pyStr content))) ∧
    (markdown = false → code = true →
      buildOutput markdown code table language theme line_numbers expand_all indent_guides
          content
        = some (Output.codeHighlight (pyStr content) language theme line_numbers)) ∧
    (selectMode markdown code table content = Mode.table →
      markdown = false ∧ code = false ∧ table = true ∧ isListOrDict content = true) ∧
    (markdown = false → code = false → (table && isListOrDict content) = false →
      buildOutput markdown code table language theme line_numbers expand_all indent_guides
          content
        = some (Output.pretty content expand_all indent_guides)) ∧
    (markdown = false → code = false → (table && isListOrDict content) = true →
      buildOutput markdown code table language theme line_numbers expand_all indent_guides
          content
        = (create_table content).map Output.table) := by
  refine ⟨?_, ?_, ?_, ?_, ?_⟩
  · intro h; subst h; simp [buildOutput, selectMode]
  · intro h1 h2; subst h1; subst h2; simp [buildOutput, selectMode]
  · intro h
    cases markdown with
    | true => simp [selectMode] at h
    | false =>
      cases code with
      | true => simp [selectMode] at h
      | false =>
        by_cases hb : (table && isListOrDict content) = true
        · exact ⟨rfl, rfl, (Bool.and_eq_true _ _).mp hb⟩
        · simp [selectMode, hb] at h
  · intro h1 h2 h3; subst h1; subst h2; simp [buildOutput, selectMode, h3]
  · intro h1 h2 h3; subst h1; subst h2; simp [buildOutput, selectMode, h3]

/-- Witness for C2: markdown mode on an integer renders the markdown of
its string representation, and the table branch with dict content really
renders the inferred table rather than falling to pretty-print. -/
theorem mode_dispatch_priority_witness :
    buildOutput true false false "python" "monokai" false true true (Value.vInt 5)
      = some (Output.markdown "5") ∧
    buildOutput false false true "python" "monokai" false true true
        (Value.vDict [("a", Value.vInt 1)])
      = some (Output.table ⟨["a"], [["1"]]⟩) :=
  ⟨((mode_dispatch_priority true false false "python" "monokai" false true true
      (Value.vInt 5)).1 rfl).trans rfl,
   ((mode_dispatch_priority false false true "python" "monokai" false true true
      (Value.vDict [("a", Value.vInt 1)])).2.2.2.2 rfl rfl rfl).trans rfl⟩

/-- C3: the centered title banner has length exactly width whenever
width is at least len(title) + 2, and for smaller widths both dash fills
are the empty string, with no error. -/
theorem center_banner_length (title : String) (width : Int) :
    ((title.length : Int) + 2 ≤ width → (centerBanner title width).length = width.toNat) ∧
    (width < (title.length : Int) + 2 →
      centerLeftSep title width = "" ∧ centerRightSep title width = "") := by
  constructor
  · intro h
    simp only [centerBanner, centerLeftSep, centerRightSep, String.length_append,
      length_pyRepeat, show (" ").length = 1 from rfl, separator_len, centerPad]
    omega
  · intro h
    have h1 : (separator_len title width).toNat = 0 := by
      simp [separator_len, centerPad]; omega
    have h2 : (centerPad title width - separator_len title width).toNat = 0 := by
      simp [separator_len, centerPad]; omega
    constructor
    · simp [centerLeftSep, pyRepeat, h1]
    · simp [centerRightSep, pyRepeat, h2]

/-- Witness for C3: a banner of width 10 for a two-letter title has
length 10, and width 3 for a four-letter title clamps both fills. -/
theorem center_banner_length_witness :
    (centerBanner "ab" 10).length = 10 ∧
    (centerLeftSep "abcd" 3 = "" ∧ centerRightSep "abcd" 3 = "") :=
  ⟨((center_banner_length "ab" 10).1 (by decide)).trans rfl,
   (center_banner_length "abcd" 3).2 (by decide)⟩

/-- C4: with two or more values the content handed to rendering is the
sep-joined string of their string representations; a single value passes
through unchanged, keeping its native type. -/
theorem content_preparation (sep : String) (a : Value) (args : List Value)
    (h : 2 ≤ args.length) :
    prepareContent sep [a] = some a ∧
    prepareContent sep args
      = some (Value.vStr (String.intercalate sep (args.map pyStr))) := by
  refine ⟨rfl, ?_⟩
  match args, h with
  | x :: y :: rest, _ => rfl

/-- Witness for C4: two string arguments joined with a dash produce the
plain string content, as in the spec scenario. -/
theorem content_preparation_witness :
    prepareContent "-" [Value.vStr "a", Value.vStr "b"] = some (Value.vStr "a-b") :=
  ((content_preparation "-" (Value.vStr "x") [Value.vStr "a", Value.vStr "b"]
      (by decide)).2).trans rfl

/-- C5: with a truthy title and no panel the dispatcher makes exactly two
writes, the banner immediately followed by the content; with panel the
title goes only into the panel title slot and there is a single write
with no banner, so a title is never rendered twice. -/
theorem title_panel_writes (title panel_style : String) (panel_expand : Bool)
    (title_width : Int) (title_style : String) (title_align : Align) (output : Output)
    (h : title ≠ "") :
    emitWrites title false panel_style panel_expand title_width title_style title_align
        output
      = [Write.markupText (formatTitleBanner title title_width title_style title_align),
         Write.rendered output] ∧
    emitWrites title true panel_style panel_expand title_width title_style title_align
        output
      = [Write.rendered (Output.panel output (some title) panel_style panel_expand)] := by
  have ht : pyTruthy title = true := by simp [pyTruthy, h]
  constructor
  · simp [emitWrites, ht]
  · simp [emitWrites, ht]

/-- Witness for C5: a panel with title X is a single write whose panel
title slot is X, matching the spec scenario. -/
theorem title_panel_writes_witness :
    emitWrites "X" true "bold cyan" true 100 "bold cyan" Align.center (Output.markdown "m")
      = [Write.rendered (Output.panel (Output.markdown "m") (some "X") "bold cyan" true)] :=
  (title_panel_writes "X" "bold cyan" true 100 "bold cyan" Align.center
      (Output.markdown "m") (by decide)).2

end Beautify

namespace Beautify

/-- C6: when the table flag is the requested mode (markdown and code
unset) but the content is neither a list nor a dict, the dispatcher
silently degrades to the default pretty-print output; the mode-selection
chain itself is a total function and raises on no input. -/
theorem table_fallback (line_numbers expand_all indent_guides : Bool)
    (language theme : String) (content : Value)
    (h : isListOrDict content = false) :
    buildOutput false false true language theme line_numbers expand_all indent_guides
        content
      = some (Output.pretty content expand_all indent_guides) := by
  simp [buildOutput, selectMode, h]

/-- Witness for C6: table flag on an integer degrades to pretty-print. -/
theorem table_fallback_witness :
    buildOutput false false true "python" "monokai" false true true (Value.vInt 7)
      = some (Output.pretty (Value.vInt 7) true true) :=
  table_fallback false true true "python" "monokai" (Value.vInt 7) rfl

/-- C7: for a non-empty list of dicts the inferred table has the keys of
the first dict, in their iteration order, as headers; exactly one row per
element; and every field is str(item.get(header, "")), so heterogeneous
dicts never raise. -/
theorem table_from_dict_list (e0 : List (String × Value))
    (ds : List (List (String × Value))) :
    create_table (Value.vList ((e0 :: ds).map Value.vDict))
      = some ⟨e0.map (fun e => e.1),
              (e0 :: ds).map (fun es =>
                (e0.map (fun e => e.1)).map
                  (fun k => pyStr (dictGet es k (Value.vStr ""))))⟩ := by
  have hm := rowsOfItems_dicts (e0.map (fun e => e.1)) (e0 :: ds)
  rw [List.map_cons] at hm ⊢
  simp [create_table, hm]

/-- C8: the decorator wrapper returns the original result unchanged,
prints exactly that result, and uses the supplied title, defaulting to
the function name when the title is empty. -/
theorem decorator_behavior {α β : Type} (title : String)
    (panel markdown code table : Bool) (func : α → β) (funcName : String) (x : α) :
    (beautify_output title panel markdown code table func funcName x).1 = func x ∧
    (beautify_output title panel markdown code table func funcName x).2.value = func x ∧
    (beautify_output title panel markdown code table func funcName x).2.title
      = (if title = "" then "Output from " ++ funcName else title) :=
  ⟨rfl, rfl, rfl⟩

/-- Witness for C8: with no title supplied, a function named inc has its
result 5 returned unchanged and printed under the default title. -/
theorem decorator_behavior_witness :
    (beautify_output "" false false false false (fun n : Nat => n + 1) "inc" 4).1 = 5 ∧
    (beautify_output "" false false false false (fun n : Nat => n + 1) "inc" 4).2.value
      = 5 ∧
    (beautify_output "" false false false false (fun n : Nat => n + 1) "inc" 4).2.title
      = "Output from inc" := by
  have h := decorator_behavior "" false false false false (fun n : Nat => n + 1) "inc" 4
  simpa using h

/-- C9: the scoped context installs the override on entry and, on exit,
restores the print function that was active at entry; the body is
arbitrary and may finish normally (ok) or raise (error), and in both
cases the with-statement runs the exit step, the result or exception
passing through unchanged. -/
theorem context_restores (tag : Nat) {ε α : Type}
    (body : GlobalPrintState → Except ε α × GlobalPrintState) (s : GlobalPrintState) :
    (contextEnter tag s).2.printFn = PrintFn.beautified tag ∧
    (withBeautifyContext tag body s).2.printFn = s.printFn ∧
    (withBeautifyContext tag body s).1 = (body (contextEnter tag s).2).1 :=
  ⟨rfl, rfl, rfl⟩

/-- Witness for C9: a body that raises and a body that returns normally
both leave the original print restored after the block. -/
theorem context_restores_witness :
    (withBeautifyContext 0
        (fun st => ((Except.error "boom" : Except String Nat), st))
        initialGlobalState).2.printFn = PrintFn.original ∧
    (withBeautifyContext 0
        (fun st => ((Except.ok 1 : Except String Nat), st))
        initialGlobalState).2.printFn = PrintFn.original :=
  ⟨(context_restores 0 (fun st => ((Except.error "boom" : Except String Nat), st))
      initialGlobalState).2.1,
   (context_restores 0 (fun st => ((Except.ok 1 : Except String Nat), st))
      initialGlobalState).2.1⟩

/-- C10: whenever the content is formed from the supplied values and the
dispatcher selects table mode, exactly one positional value was supplied;
with two or more values the joined content is a plain string, for which
the table branch is unreachable whatever the flags. -/
theorem table_needs_single_value (sep : String) (args : List Value)
    (markdown code table : Bool) (content : Value)
    (hc : prepareContent sep args = some content)
    (ht : selectMode markdown code table content = Mode.table) :
    args.length = 1 := by
  cases args with
  | nil => simp [prepareContent] at hc
  | cons x rest =>
    cases rest with
    | nil => rfl
    | cons y rest2 =>
      have hx : content
          = Value.vStr (String.intercalate sep ((x :: y :: rest2).map pyStr)) := by
        have : prepareContent sep (x :: y :: rest2)
            = some (Value.vStr (String.intercalate sep ((x :: y :: rest2).map pyStr))) :=
          rfl
        rw [this] at hc
        exact (Option.some_injective _ hc).symm
      rw [hx] at ht
      cases markdown <;> cases code <;> simp [selectMode, isListOrDict] at ht

/-- Witness for C10: a single dict argument with the table flag set does
reach table mode, and the argument count is one. -/
theorem table_needs_single_value_witness :
    ([Value.vDict [("a", Value.vInt 1)]] : List Value).length = 1 :=
  table_needs_single_value " " [Value.vDict [("a", Value.vInt 1)]] false false true
    (Value.vDict [("a", Value.vInt 1)]) rfl rfl

end Beautify
